import Mathlib

/-!
Shallow embedding of the capture-source controller
(`pkg/pipeline/source/web.go`, which ships two near-duplicate revisions of
the file: "version A" = 3 attempts / 5s delay, no chrome-handle cancel
between failed attempts; "version B" = 5 attempts / 10s delay, cancels the
chrome handle after each failed attempt) and of the upload collaborator
(`pkg/pipeline/sink/uploader/uploader.go`).

External effects (pactl, Xvfb, chromedp, the file system) are modelled by
an environment record supplying each call's outcome, and every embedded
operation additionally returns the list of resource events it performed,
so that allocation/teardown claims become statements about that trace.
-/

namespace Egress

/-- Modelled from the spec: the error taxonomy of `pkg/errors`
(`ErrProcessFailed`, `ErrChromeFailedToStart`, `ErrPageLoadFailed`,
`ExhaustedRetries`), which is repository code not present under `src/`;
`other` stands for raw errors the source returns unwrapped (e.g. the
`url.Parse` error in `launchChrome`). -/
inductive EgressError where
  | processFailed (component : String)
  | chromeFailedToStart (msg : String)
  | pageLoadFailed (reason : String)
  | exhaustedRetries (last : String)
  | other (msg : String)
deriving DecidableEq

/-- True exactly on the spec's `ExhaustedRetries` form. -/
def EgressError.isExhaustedRetries : EgressError → Bool
  | .exhaustedRetries _ => true
  | _ => false

namespace Source

/-- Sentinel logged by the page to start recording (`startRecordingLog`). -/
def startRecordingLog : String := "START_RECORDING"

/-- Sentinel logged by the page to end recording (`endRecordingLog`). -/
def endRecordingLog : String := "END_RECORDING"

/-- The two recording-boundary channels of `WebSource` as seen by the
`ListenTarget` console handler.  `none` models a nil Go channel; `some b`
models an allocated channel, where `b` records whether it has been closed
(closed = the signal has occurred). -/
structure Signals where
  startRecording : Option Bool
  endRecording : Option Bool
deriving DecidableEq

/-- The sentinel dispatch of the `ListenTarget` handler for a single
console argument (identical in both revisions of `web.go`); the argument
is `none` when `json.Unmarshal` failed (the handler `continue`s), else the
`fmt.Sprint` rendering of the decoded value.  On `START_RECORDING`, if the
start channel exists and is not yet closed, close it (the
`select`/`default` guard makes a second occurrence a no-op instead of a
`close`-of-closed panic); symmetrically for `END_RECORDING`; anything else
leaves the signals untouched. -/
def handleArg (s : Signals) (arg : Option String) : Signals :=
  match arg with
  | none => s
  | some v =>
    if v = startRecordingLog then
      match s.startRecording with
      | none => s
      | some closed => if closed then s else { s with startRecording := some true }
    else if v = endRecordingLog then
      match s.endRecording with
      | none => s
      | some closed => if closed then s else { s with endRecording := some true }
    else s

/-- Processing of one `EventConsoleAPICalled`: the handler's `for _, arg :=
range ev.Args` loop over the decoded arguments. -/
def handleConsole (s : Signals) (args : List (Option String)) : Signals :=
  args.foldl handleArg s

/-- Processing of a whole sequence of console events. -/
def handleStream (s : Signals) (evs : List (List (Option String))) : Signals :=
  evs.foldl handleConsole s

/-- `strings.TrimRight(out, "\n")`: drop every trailing newline from the
`pactl` stdout captured by `createPulseSink`. -/
def trimRightNewline (s : String) : String :=
  String.mk ((s.data.reverse.dropWhile (fun c => c = '\n')).reverse)

/-- Resource events performed by the controller, for the fake resource
layer counting create/destroy calls: `createSink`/`unloadSink` are the
pactl load/unload commands, `launchXvfb`/`killXvfb` the display process,
`invokeChrome a` one invocation of `launchChrome` for attempt `a`,
`allocChrome a` the point where that invocation sets `s.closeChrome`,
`cancelChrome a` a call of that stored cancel function, and `sleepRetry`
the fixed inter-attempt delay. -/
inductive Ev where
  | createSink (name : String)
  | unloadSink (name : String)
  | launchXvfb
  | killXvfb
  | invokeChrome (attempt : Nat)
  | allocChrome (handle : Nat)
  | cancelChrome (handle : Nat)
  | sleepRetry
deriving DecidableEq

/-- The `WebSource` struct.  `pulseSink` is the module id string (`""` =
zero value), `xvfb` the display process (`some pid`), `closeChrome` the
composed cancel function identified by the attempt that installed it, and
the two channels as in `Signals`. -/
structure WebSrc where
  pulseSink : String
  xvfb : Option Nat
  closeChrome : Option Nat
  startRecording : Option Bool
  endRecording : Option Bool
deriving DecidableEq

/-- `WebSource.StartRecording`: returns the start channel as-is. -/
def WebSrc.StartRecording (s : WebSrc) : Option Bool := s.startRecording

/-- `WebSource.EndRecording`: returns the end channel as-is. -/
def WebSrc.EndRecording (s : WebSrc) : Option Bool := s.endRecording

/-- First block of `WebSource.Close`: if `s.closeChrome != nil`, call it
and set it to nil. -/
def closeChromeStep (s : WebSrc) : WebSrc × List Ev :=
  match s.closeChrome with
  | some h => ({ s with closeChrome := none }, [Ev.cancelChrome h])
  | none => (s, [])

/-- Second block of `WebSource.Close`: if `s.xvfb != nil`, kill and wait
the process and set the field to nil. -/
def closeXvfbStep (s : WebSrc) : WebSrc × List Ev :=
  match s.xvfb with
  | some _ => ({ s with xvfb := none }, [Ev.killXvfb])
  | none => (s, [])

/-- Third block of `WebSource.Close`: if `s.pulseSink != ""`, run
`pactl unload-module`; the field is NOT cleared by the source. -/
def closePulseStep (s : WebSrc) : List Ev :=
  if s.pulseSink = "" then [] else [Ev.unloadSink s.pulseSink]

/-- `WebSource.Close` (identical in both revisions): chrome, then xvfb,
then pulse sink, returning the new state and the teardown events. -/
def closeSrc (s : WebSrc) : WebSrc × List Ev :=
  let c := closeChromeStep s
  let x := closeXvfbStep c.1
  (x.1, c.2 ++ x.2 ++ closePulseStep x.1)

/-- Environment-supplied outcome of one `launchChrome` invocation:
`allocates` says whether the invocation reached the point of installing
`s.closeChrome` (it fails earlier only on a `url.Parse` error, or, in
version B, is observed by the supervisor before the install); `result` is
the value it sends on `chromeErr` (`none` = success); `inTime` says
whether that send wins the `select` against `time.After(chromeTimeout)`. -/
structure ChromeAttempt where
  allocates : Bool
  result : Option EgressError
  inTime : Bool

/-- The error the supervisor records for one attempt: the goroutine's
result if it arrives in time, else `ErrPageLoadFailed("timed out")` from
the `time.After(chromeTimeout)` branch of the `select`. -/
def attemptErr (a : ChromeAttempt) : Option EgressError :=
  if a.inTime then a.result else some (EgressError.pageLoadFailed "timed out")

/-- Go's `(s *WebSource, err error)` return of `NewWebSource`. -/
structure NewResult where
  src : Option WebSrc
  err : Option EgressError
deriving DecidableEq

/-- `maxRetries` in version A of `NewWebSource`. -/
def maxRetriesA : Nat := 3

/-- `retryDelay` (seconds) in version A of `NewWebSource`. -/
def retryDelaySecA : Nat := 5

/-- `maxRetries` in version B of `NewWebSource`. -/
def maxRetriesB : Nat := 5

/-- `retryDelay` (seconds) in version B of `NewWebSource`. -/
def retryDelaySecB : Nat := 10

/-- `chromeTimeout` (seconds): the per-attempt wall-clock timeout raced
against the `launchChrome` goroutine. -/
def chromeTimeoutSec : Nat := 45

/-- The `context.WithTimeout(chromeCtx, 60*time.Second)` navigation
timeout inside version A's `launchChrome`. -/
def navigationTimeoutSec : Nat := 60

/-- The retry loop of version A's `NewWebSource`, by remaining attempts
(`fuel`); `attempt` is the 1-based loop counter, `lastErr` the current
value of `err`.  A failed attempt is NOT followed by a cancel of the
chrome handle; after the last attempt, `s.Close()` runs and the last
error is returned with a nil source. -/
def chromeLoopA (env : Nat → ChromeAttempt) :
    Nat → Nat → Option EgressError → WebSrc → NewResult × List Ev
  | 0, _, lastErr, s => ({ src := none, err := lastErr }, (closeSrc s).2)
  | f+1, a, _, s =>
      let s1 := if (env a).allocates then { s with closeChrome := some a } else s
      let evs1 := Ev.invokeChrome a ::
        (if (env a).allocates then [Ev.allocChrome a] else [])
      match attemptErr (env a) with
      | none => ({ src := some s1, err := none }, evs1)
      | some e =>
          let evs3 := if 0 < f then [Ev.sleepRetry] else []
          let r := chromeLoopA env f (a+1) (some e) s1
          (r.1, evs1 ++ evs3 ++ r.2)

/-- The retry loop of version B's `NewWebSource`: as version A, but after
a failed attempt the chrome handle (if installed) is canceled and the
field cleared before the inter-attempt sleep. -/
def chromeLoopB (env : Nat → ChromeAttempt) :
    Nat → Nat → Option EgressError → WebSrc → NewResult × List Ev
  | 0, _, lastErr, s => ({ src := none, err := lastErr }, (closeSrc s).2)
  | f+1, a, _, s =>
      let s1 := if (env a).allocates then { s with closeChrome := some a } else s
      let evs1 := Ev.invokeChrome a ::
        (if (env a).allocates then [Ev.allocChrome a] else [])
      match attemptErr (env a) with
      | none => ({ src := some s1, err := none }, evs1)
      | some e =>
          let s2 := { s1 with closeChrome := none }
          let evs2 := match s1.closeChrome with
            | some h => [Ev.cancelChrome h]
            | none => []
          let evs3 := if 0 < f then [Ev.sleepRetry] else []
          let r := chromeLoopB env f (a+1) (some e) s2
          (r.1, evs1 ++ evs2 ++ evs3 ++ r.2)

/-- Environment for one run of `NewWebSource`: the config's
`AwaitStartSignal` flag, the outcome of the `pactl load-module` command
(`some stdout` on success), the outcome of starting Xvfb, and the outcome
of each chrome attempt. -/
structure WebEnv where
  awaitStartSignal : Bool
  pulseOutput : Option String
  xvfbOk : Bool
  attempts : Nat → ChromeAttempt

/-- The `WebSource` literal built at the top of `NewWebSource`:
`endRecording` is allocated open; `startRecording` is allocated only when
`p.AwaitStartSignal` is set. -/
def initialSrc (awaitStart : Bool) : WebSrc :=
  { pulseSink := ""
    xvfb := none
    closeChrome := none
    startRecording := if awaitStart then some false else none
    endRecording := some false }

/-- Version A of `NewWebSource` (lines 62-118): create the pulse sink,
launch Xvfb, then run the 3-attempt chrome loop; each failing step calls
`s.Close()` and returns `nil` with the error. -/
def newWebSourceA (env : WebEnv) : NewResult × List Ev :=
  let s0 := initialSrc env.awaitStartSignal
  match env.pulseOutput with
  | none =>
      ({ src := none, err := some (EgressError.processFailed "pulse") }, (closeSrc s0).2)
  | some out =>
      let s1 := { s0 with pulseSink := trimRightNewline out }
      if env.xvfbOk then
        let s2 := { s1 with xvfb := some 0 }
        let r := chromeLoopA env.attempts maxRetriesA 1 none s2
        (r.1, Ev.createSink s1.pulseSink :: Ev.launchXvfb :: r.2)
      else
        ({ src := none, err := some (EgressError.processFailed "xvfb") },
          Ev.createSink s1.pulseSink :: (closeSrc s1).2)

/-- Version B of `NewWebSource` (lines 494-556): as version A but with the
5-attempt loop that cancels the chrome handle between failed attempts. -/
def newWebSourceB (env : WebEnv) : NewResult × List Ev :=
  let s0 := initialSrc env.awaitStartSignal
  match env.pulseOutput with
  | none =>
      ({ src := none, err := some (EgressError.processFailed "pulse") }, (closeSrc s0).2)
  | some out =>
      let s1 := { s0 with pulseSink := trimRightNewline out }
      if env.xvfbOk then
        let s2 := { s1 with xvfb := some 0 }
        let r := chromeLoopB env.attempts maxRetriesB 1 none s2
        (r.1, Ev.createSink s1.pulseSink :: Ev.launchXvfb :: r.2)
      else
        ({ src := none, err := some (EgressError.processFailed "xvfb") },
          Ev.createSink s1.pulseSink :: (closeSrc s1).2)

/-- Number of `launchChrome` invocations in a trace. -/
def invokeCount (tr : List Ev) : Nat :=
  tr.countP fun e => match e with | Ev.invokeChrome _ => true | _ => false

/-- Number of chrome-handle installations in a trace. -/
def allocCount (tr : List Ev) : Nat :=
  tr.countP fun e => match e with | Ev.allocChrome _ => true | _ => false

/-- Number of chrome-handle cancellations in a trace. -/
def cancelCount (tr : List Ev) : Nat :=
  tr.countP fun e => match e with | Ev.cancelChrome _ => true | _ => false

/-- Number of Xvfb kills in a trace. -/
def killCount (tr : List Ev) : Nat :=
  tr.countP fun e => match e with | Ev.killXvfb => true | _ => false

/-- Number of `pactl unload-module` runs in a trace. -/
def unloadCount (tr : List Ev) : Nat :=
  tr.countP fun e => match e with | Ev.unloadSink _ => true | _ => false

/-- A trace leaks a chrome handle when some installed handle is never
canceled. -/
def leakedB (tr : List Ev) : Bool :=
  tr.any fun e => match e with
    | Ev.allocChrome h => !(tr.contains (Ev.cancelChrome h))
    | _ => false

/-- Concrete environment: pactl and Xvfb succeed, every chrome attempt
installs a handle and then fails in time with `PageLoadFailed("x")`. -/
def envAllFail : WebEnv :=
  { awaitStartSignal := false
    pulseOutput := some "42\n"
    xvfbOk := true
    attempts := fun _ => ⟨true, some (EgressError.pageLoadFailed "x"), true⟩ }

/-- Concrete environment for version A's retry bound: attempts 1 and 2
fail, attempt 3 (the last of version A's 3) succeeds. -/
def envRetryA : WebEnv :=
  { awaitStartSignal := false
    pulseOutput := some "42\n"
    xvfbOk := true
    attempts := fun i =>
      ⟨true, if i ≤ 2 then some (EgressError.pageLoadFailed "x") else none, true⟩ }

/-- Concrete environment for version B's retry bound: attempts 1-4 fail,
attempt 5 (the last of version B's 5) succeeds. -/
def envRetryB : WebEnv :=
  { awaitStartSignal := false
    pulseOutput := some "42\n"
    xvfbOk := true
    attempts := fun i =>
      ⟨true, if i ≤ 4 then some (EgressError.pageLoadFailed "x") else none, true⟩ }

/-- Concrete environment: everything succeeds on the first attempt, with
no externally-gated start requested. -/
def envFirstTry : WebEnv :=
  { awaitStartSignal := false
    pulseOutput := some "42\n"
    xvfbOk := true
    attempts := fun _ => ⟨true, none, true⟩ }

/-- The controller `newWebSourceB envFirstTry` returns. -/
def srcFirstTry : WebSrc :=
  { pulseSink := "42"
    xvfb := some 0
    closeChrome := some 1
    startRecording := none
    endRecording := some false }

/-- A fully-built controller state, used to exercise `Close` twice. -/
def sC4 : WebSrc :=
  { pulseSink := "42"
    xvfb := some 0
    closeChrome := some 1
    startRecording := none
    endRecording := some false }

end Source

namespace Uploader

/-- `maxRetries` of `uploader.go` (declared, and never used by any code
path of the file). -/
def maxRetries : Nat := 5

/-- `minDelay` of `uploader.go` in milliseconds (declared, unused). -/
def minDelayMs : Nat := 100

/-- `maxDelay` of `uploader.go` in milliseconds (declared, unused). -/
def maxDelayMs : Nat := 5000

/-- The fixed output directory hard-coded in `remoteUploader.Upload`. -/
def outDir : String := "/out/recordings"

/-- `path.Join` for the shapes used here (an absolute clean dir and a
relative file name): separator concatenation. -/
def pathJoin (a b : String) : String := a ++ "/" ++ b

/-- `path.Dir` for the shapes used here: everything before the last
separator. -/
def pathDir (p : String) : String :=
  String.intercalate "/" ((p.splitOn "/").dropLast)

/-- Errors of the upload path, by failing step (the Go code returns the
opaque OS error of that step). -/
inductive UpErr where
  | mkdirFailed
  | copyFailed
  | statFailed
deriving DecidableEq

/-- File-system calls performed by `remoteUploader.Upload`; `removeF`
records whether the `os.Remove` succeeded. -/
inductive UpEv where
  | mkdirAll (dir : String)
  | copyF (src dst : String)
  | statF (path : String)
  | removeF (path : String) (ok : Bool)
deriving DecidableEq

/-- Outcomes of the file-system calls for one `Upload` run: whether
`os.MkdirAll` and `copyFile` succeed, the size `os.Stat` reports for the
output file (`none` = stat error), and whether `os.Remove` succeeds. -/
structure UploadEnv where
  mkdirOk : Bool
  copyOk : Bool
  statSize : Option Int
  removeOk : Bool

/-- Go's `(string, int64, error)` return of `Upload`. -/
structure UploadReturn where
  location : String
  size : Int
  err : Option UpErr
deriving DecidableEq

/-- `remoteUploader.Upload` (lines 82-115): unconditionally build
`/out/recordings/<storageFilepath>`, mkdir its directory, copy the local
file there, stat it, optionally `os.Remove` the original (whose error is
logged and discarded), and return the output path and size.  Each failing
step returns `("", 0, err)` immediately; nothing retries and the
configured remote backend is never invoked. -/
def remoteUpload (env : UploadEnv) (localFilepath storageFilepath : String)
    (deleteAfterUpload : Bool) : UploadReturn × List UpEv :=
  let outFilepath := pathJoin outDir storageFilepath
  let evs0 := [UpEv.mkdirAll (pathDir outFilepath)]
  if env.mkdirOk then
    let evs1 := evs0 ++ [UpEv.copyF localFilepath outFilepath]
    if env.copyOk then
      let evs2 := evs1 ++ [UpEv.statF outFilepath]
      match env.statSize with
      | none => ({ location := "", size := 0, err := some UpErr.statFailed }, evs2)
      | some sz =>
          let evs3 :=
            if deleteAfterUpload then evs2 ++ [UpEv.removeF localFilepath env.removeOk]
            else evs2
          ({ location := outFilepath, size := sz, err := none }, evs3)
    else ({ location := "", size := 0, err := some UpErr.copyFailed }, evs1)
  else ({ location := "", size := 0, err := some UpErr.mkdirFailed }, evs0)

/-- `localUploader.Upload` (lines 119-126): stat the local file and return
it in place. -/
def localUpload (statSize : Option Int) (localFilepath : String) : UploadReturn :=
  match statSize with
  | none => { location := "", size := 0, err := some UpErr.statFailed }
  | some sz => { location := localFilepath, size := sz, err := none }

/-- Number of `copyFile` calls in an upload trace. -/
def copyCount (tr : List UpEv) : Nat :=
  tr.countP fun e => match e with | UpEv.copyF _ _ => true | _ => false

end Uploader

end Egress

namespace Egress.Source

lemma end_ne_start : (endRecordingLog = startRecordingLog) = False := by
  simp [startRecordingLog, endRecordingLog]

lemma handleArg_start_mono (s : Signals) (a : Option String)
    (h : s.startRecording = some true) :
    (handleArg s a).startRecording = some true := by
  cases a with
  | none => simpa [handleArg] using h
  | some v =>
    by_cases hv : v = startRecordingLog
    · simp [handleArg, hv, h]
    · by_cases hw : v = endRecordingLog
      · cases he : s.endRecording with
        | none => simp [handleArg, hv, hw, he, h, end_ne_start]
        | some c => cases c <;> simp [handleArg, hv, hw, he, h, end_ne_start]
      · simp [handleArg, hv, hw, h]

lemma handleArg_end_mono (s : Signals) (a : Option String)
    (h : s.endRecording = some true) :
    (handleArg s a).endRecording = some true := by
  cases a with
  | none => simpa [handleArg] using h
  | some v =>
    by_cases hv : v = startRecordingLog
    · cases hs : s.startRecording with
      | none => simp [handleArg, hv, hs, h]
      | some c => cases c <;> simp [handleArg, hv, hs, h]
    · by_cases hw : v = endRecordingLog
      · simp [handleArg, hv, hw, h, end_ne_start]
      · simp [handleArg, hv, hw, h]

lemma handleArg_start_none (s : Signals) (a : Option String)
    (h : s.startRecording = none) :
    (handleArg s a).startRecording = none := by
  cases a with
  | none => simpa [handleArg] using h
  | some v =>
    by_cases hv : v = startRecordingLog
    · simp [handleArg, hv, h]
    · by_cases hw : v = endRecordingLog
      · cases he : s.endRecording with
        | none => simp [handleArg, hv, hw, he, h, end_ne_start]
        | some c => cases c <;> simp [handleArg, hv, hw, he, h, end_ne_start]
      · simp [handleArg, hv, hw, h]

lemma handleConsole_cons (s : Signals) (a : Option String) (t : List (Option String)) :
    handleConsole s (a :: t) = handleConsole (handleArg s a) t := rfl

lemma handleStream_cons (s : Signals) (e : List (Option String))
    (t : List (List (Option String))) :
    handleStream s (e :: t) = handleStream (handleConsole s e) t := rfl

lemma handleConsole_start_mono (s : Signals) (args : List (Option String))
    (h : s.startRecording = some true) :
    (handleConsole s args).startRecording = some true := by
  induction args generalizing s with
  | nil => exact h
  | cons a t ih => exact ih _ (handleArg_start_mono s a h)

lemma handleConsole_end_mono (s : Signals) (args : List (Option String))
    (h : s.endRecording = some true) :
    (handleConsole s args).endRecording = some true := by
  induction args generalizing s with
  | nil => exact h
  | cons a t ih => exact ih _ (handleArg_end_mono s a h)

lemma handleConsole_start_none (s : Signals) (args : List (Option String))
    (h : s.startRecording = none) :
    (handleConsole s args).startRecording = none := by
  induction args generalizing s with
  | nil => exact h
  | cons a t ih => exact ih _ (handleArg_start_none s a h)

lemma handleStream_start_mono (s : Signals) (evs : List (List (Option String)))
    (h : s.startRecording = some true) :
    (handleStream s evs).startRecording = some true := by
  induction evs generalizing s with
  | nil => exact h
  | cons e t ih => exact ih _ (handleConsole_start_mono s e h)

lemma handleStream_end_mono (s : Signals) (evs : List (List (Option String)))
    (h : s.endRecording = some true) :
    (handleStream s evs).endRecording = some true := by
  induction evs generalizing s with
  | nil => exact h
  | cons e t ih => exact ih _ (handleConsole_end_mono s e h)

lemma handleStream_start_none (s : Signals) (evs : List (List (Option String)))
    (h : s.startRecording = none) :
    (handleStream s evs).startRecording = none := by
  induction evs generalizing s with
  | nil => exact h
  | cons e t ih => exact ih _ (handleConsole_start_none s e h)

lemma handleArg_nil_start_other (s : Signals) (a : Option String)
    (h : s.startRecording = none) (hne : a ≠ some endRecordingLog) :
    handleArg s a = s := by
  cases a with
  | none => rfl
  | some v =>
    by_cases hv : v = startRecordingLog
    · simp [handleArg, hv, h]
    · have hw : v ≠ endRecordingLog := by
        intro hh
        exact hne (by rw [hh])
      simp [handleArg, hv, hw]

end Egress.Source

namespace Egress.Source

lemma chromeLoopA_allFail (env : Nat → ChromeAttempt) :
    ∀ (f a : Nat) (le : Option EgressError) (s : WebSrc),
      0 < f →
      (∀ i, a ≤ i → i < a + f → attemptErr (env i) ≠ none) →
      (chromeLoopA env f a le s).1.src = none ∧
      (chromeLoopA env f a le s).1.err = attemptErr (env (a + f - 1)) ∧
      invokeCount (chromeLoopA env f a le s).2 = f ∧
      killCount (chromeLoopA env f a le s).2 = (if s.xvfb.isSome then 1 else 0) ∧
      unloadCount (chromeLoopA env f a le s).2 = (if s.pulseSink = "" then 0 else 1) := by
  intro f
  induction f with
  | zero => intro a le s h0 _; exact absurd h0 (by omega)
  | succ f ih =>
    intro a le s _ hfail
    obtain ⟨e, he⟩ : ∃ e, attemptErr (env a) = some e := by
      cases hc : attemptErr (env a) with
      | none => exact absurd hc (hfail a le_rfl (by omega))
      | some e => exact ⟨e, rfl⟩
    obtain ⟨ps, xv, cc, sr, er⟩ := s
    rcases Nat.eq_zero_or_pos f with hf0 | hfpos
    · subst hf0
      cases hal : (env a).allocates <;> rcases xv with _ | x <;> rcases cc with _ | c <;>
        by_cases hp : ps = "" <;>
          simp [chromeLoopA, he, hal, hp, closeSrc, closeChromeStep, closeXvfbStep,
            closePulseStep, invokeCount, killCount, unloadCount, List.countP_cons,
            List.countP_append]
    · have hfail2 : ∀ i, a + 1 ≤ i → i < a + 1 + f → attemptErr (env i) ≠ none := by
        intro i h1 h2
        exact hfail i (by omega) (by omega)
      have hidx : a + 1 + f - 1 = a + (f + 1) - 1 := by omega
      cases hal : (env a).allocates
      · have IH := ih (a + 1) (some e) ⟨ps, xv, cc, sr, er⟩ hfpos hfail2
        obtain ⟨ih1, ih2, ih3, ih4, ih5⟩ := IH
        rw [hidx] at ih2
        simp only [chromeLoopA, he, hal] at *
        refine ⟨ih1, ih2, ?_, ?_, ?_⟩ <;>
          simp [invokeCount, killCount, unloadCount, List.countP_cons, List.countP_append,
            hfpos] at ih3 ih4 ih5 ⊢ <;> omega
      · have IH := ih (a + 1) (some e) ⟨ps, xv, some a, sr, er⟩ hfpos hfail2
        obtain ⟨ih1, ih2, ih3, ih4, ih5⟩ := IH
        rw [hidx] at ih2
        simp only [chromeLoopA, he, hal] at *
        refine ⟨ih1, ih2, ?_, ?_, ?_⟩ <;>
          simp [invokeCount, killCount, unloadCount, List.countP_cons, List.countP_append,
            hfpos] at ih3 ih4 ih5 ⊢ <;> omega

lemma chromeLoopB_allFail (env : Nat → ChromeAttempt) :
    ∀ (f a : Nat) (le : Option EgressError) (s : WebSrc),
      0 < f →
      (∀ i, a ≤ i → i < a + f → attemptErr (env i) ≠ none) →
      (chromeLoopB env f a le s).1.src = none ∧
      (chromeLoopB env f a le s).1.err = attemptErr (env (a + f - 1)) ∧
      invokeCount (chromeLoopB env f a le s).2 = f ∧
      killCount (chromeLoopB env f a le s).2 = (if s.xvfb.isSome then 1 else 0) ∧
      unloadCount (chromeLoopB env f a le s).2 = (if s.pulseSink = "" then 0 else 1) := by
  intro f
  induction f with
  | zero => intro a le s h0 _; exact absurd h0 (by omega)
  | succ f ih =>
    intro a le s _ hfail
    obtain ⟨e, he⟩ : ∃ e, attemptErr (env a) = some e := by
      cases hc : attemptErr (env a) with
      | none => exact absurd hc (hfail a le_rfl (by omega))
      | some e => exact ⟨e, rfl⟩
    obtain ⟨ps, xv, cc, sr, er⟩ := s
    rcases Nat.eq_zero_or_pos f with hf0 | hfpos
    · subst hf0
      cases hal : (env a).allocates <;> rcases xv with _ | x <;> rcases cc with _ | c <;>
        by_cases hp : ps = "" <;>
          simp [chromeLoopB, he, hal, hp, closeSrc, closeChromeStep, closeXvfbStep,
            closePulseStep, invokeCount, killCount, unloadCount, List.countP_cons,
            List.countP_append]
    · have hfail2 : ∀ i, a + 1 ≤ i → i < a + 1 + f → attemptErr (env i) ≠ none := by
        intro i h1 h2
        exact hfail i (by omega) (by omega)
      have hidx : a + 1 + f - 1 = a + (f + 1) - 1 := by omega
      have IH := ih (a + 1) (some e) ⟨ps, xv, none, sr, er⟩ hfpos hfail2
      obtain ⟨ih1, ih2, ih3, ih4, ih5⟩ := IH
      rw [hidx] at ih2
      cases hal : (env a).allocates <;> rcases cc with _ | c <;>
        (simp only [chromeLoopB, he, hal] at *
         refine ⟨ih1, ih2, ?_, ?_, ?_⟩ <;>
           simp [invokeCount, killCount, unloadCount, List.countP_cons, List.countP_append,
             hfpos] at ih3 ih4 ih5 ⊢ <;> omega)

lemma chromeLoopA_keepStart (env : Nat → ChromeAttempt) :
    ∀ (f a : Nat) (le : Option EgressError) (s s' : WebSrc),
      (chromeLoopA env f a le s).1.src = some s' → s'.startRecording = s.startRecording := by
  intro f
  induction f with
  | zero => intro a le s s' hsome; simp [chromeLoopA] at hsome
  | succ f ih =>
    intro a le s s' hsome
    cases he : attemptErr (env a) with
    | none =>
      cases hal : (env a).allocates <;>
        (simp [chromeLoopA, he, hal] at hsome; subst hsome; simp)
    | some e =>
      cases hal : (env a).allocates
      · simp only [chromeLoopA, he, hal] at hsome
        exact ih _ _ _ _ (by simpa using hsome)
      · simp only [chromeLoopA, he, hal] at hsome
        have hpres := ih _ _ _ _ (by simpa using hsome)
        simpa using hpres

lemma chromeLoopB_keepStart (env : Nat → ChromeAttempt) :
    ∀ (f a : Nat) (le : Option EgressError) (s s' : WebSrc),
      (chromeLoopB env f a le s).1.src = some s' → s'.startRecording = s.startRecording := by
  intro f
  induction f with
  | zero => intro a le s s' hsome; simp [chromeLoopB] at hsome
  | succ f ih =>
    intro a le s s' hsome
    cases he : attemptErr (env a) with
    | none =>
      cases hal : (env a).allocates <;>
        (simp [chromeLoopB, he, hal] at hsome; subst hsome; simp)
    | some e =>
      cases hal : (env a).allocates
      · simp only [chromeLoopB, he, hal] at hsome
        have hpres := ih _ _ _ _ (by simpa using hsome)
        simpa using hpres
      · simp only [chromeLoopB, he, hal] at hsome
        have hpres := ih _ _ _ _ (by simpa using hsome)
        simpa using hpres

end Egress.Source

namespace Egress.Source

/-- Claim C1: version A of `NewWebSource` violates the no-leak guarantee:
with pactl and Xvfb succeeding and every chrome attempt installing a
handle and then failing, construction fails having installed three chrome
handles but canceling only the last one (in the final `Close`), so two
allocated handles leak; version B of the same file cancels all five of
its handles.  This is the regression the spec's design notes call out. -/
theorem c1_new_web_source_a_leaks_failed_handles :
    (newWebSourceA envAllFail).1.src = none ∧
    allocCount (newWebSourceA envAllFail).2 = 3 ∧
    cancelCount (newWebSourceA envAllFail).2 = 1 ∧
    leakedB (newWebSourceA envAllFail).2 = true ∧
    leakedB (newWebSourceB envAllFail).2 = false ∧
    allocCount (newWebSourceB envAllFail).2 = 5 ∧
    cancelCount (newWebSourceB envAllFail).2 = 5 := by decide

/-- Claim C2: with the launcher failing on attempts 1-2 and succeeding on
attempt 3 (the last of version A's 3), version A of `NewWebSource`
succeeds after exactly `maxRetriesA` invocations but performs zero
cancels: the handles of the two failed attempts are never canceled before
the next attempt installs a new one.  Version B, under the analogous
fail-4-then-succeed environment, cancels each failed attempt's handle
before the next invocation, as its full trace shows. -/
theorem c2_new_web_source_a_retry_without_cancel :
    ((newWebSourceA envRetryA).1.src).isSome = true ∧
    invokeCount (newWebSourceA envRetryA).2 = maxRetriesA ∧
    cancelCount (newWebSourceA envRetryA).2 = 0 ∧
    ((newWebSourceB envRetryB).1.src).isSome = true ∧
    (newWebSourceB envRetryB).2 =
      [Ev.createSink "42", Ev.launchXvfb,
       Ev.invokeChrome 1, Ev.allocChrome 1, Ev.cancelChrome 1, Ev.sleepRetry,
       Ev.invokeChrome 2, Ev.allocChrome 2, Ev.cancelChrome 2, Ev.sleepRetry,
       Ev.invokeChrome 3, Ev.allocChrome 3, Ev.cancelChrome 3, Ev.sleepRetry,
       Ev.invokeChrome 4, Ev.allocChrome 4, Ev.cancelChrome 4, Ev.sleepRetry,
       Ev.invokeChrome 5, Ev.allocChrome 5] := by decide

/-- Claim C3, counterexample: after all attempts fail with
`PageLoadFailed("x")`, both versions of `NewWebSource` return that last
error itself, which is not of the `ExhaustedRetries` form — the code
never wraps the exhaustion error. -/
theorem c3_error_not_wrapped :
    (newWebSourceA envAllFail).1.err = some (EgressError.pageLoadFailed "x") ∧
    (newWebSourceB envAllFail).1.err = some (EgressError.pageLoadFailed "x") ∧
    EgressError.isExhaustedRetries (EgressError.pageLoadFailed "x") = false := by decide

/-- Claim C3, amended: given a launcher failing on every attempt (and
pactl/Xvfb succeeding with a nonempty sink name), each version of
`NewWebSource` invokes the launcher exactly its `maxRetries` times,
returns the last attempt's error directly (no `ExhaustedRetries`
wrapper), with the display killed exactly once and the sink unloaded
exactly once. -/
theorem c3_exhaustion_amended (envW : WebEnv) (po : String)
    (hp : envW.pulseOutput = some po) (hsk : trimRightNewline po ≠ "")
    (hx : envW.xvfbOk = true)
    (hf : ∀ i, 1 ≤ i → i ≤ maxRetriesB → attemptErr (envW.attempts i) ≠ none) :
    (newWebSourceA envW).1.src = none ∧
    (newWebSourceA envW).1.err = attemptErr (envW.attempts maxRetriesA) ∧
    invokeCount (newWebSourceA envW).2 = maxRetriesA ∧
    killCount (newWebSourceA envW).2 = 1 ∧
    unloadCount (newWebSourceA envW).2 = 1 ∧
    (newWebSourceB envW).1.src = none ∧
    (newWebSourceB envW).1.err = attemptErr (envW.attempts maxRetriesB) ∧
    invokeCount (newWebSourceB envW).2 = maxRetriesB ∧
    killCount (newWebSourceB envW).2 = 1 ∧
    unloadCount (newWebSourceB envW).2 = 1 := by
  have hfA : ∀ i, 1 ≤ i → i < 1 + maxRetriesA → attemptErr (envW.attempts i) ≠ none := by
    intro i h1 h2
    refine hf i h1 ?_
    simp [maxRetriesA] at h2
    simp [maxRetriesB]
    omega
  have hfB : ∀ i, 1 ≤ i → i < 1 + maxRetriesB → attemptErr (envW.attempts i) ≠ none := by
    intro i h1 h2
    refine hf i h1 ?_
    simp [maxRetriesB] at h2 ⊢
    omega
  have LA := chromeLoopA_allFail envW.attempts maxRetriesA 1 none
    { pulseSink := trimRightNewline po, xvfb := some 0, closeChrome := none,
      startRecording := if envW.awaitStartSignal then some false else none,
      endRecording := some false }
    (by simp [maxRetriesA]) hfA
  have LB := chromeLoopB_allFail envW.attempts maxRetriesB 1 none
    { pulseSink := trimRightNewline po, xvfb := some 0, closeChrome := none,
      startRecording := if envW.awaitStartSignal then some false else none,
      endRecording := some false }
    (by simp [maxRetriesB]) hfB
  obtain ⟨a1, a2, a3, a4, a5⟩ := LA
  obtain ⟨b1, b2, b3, b4, b5⟩ := LB
  simp only [newWebSourceA, newWebSourceB, hp, hx, if_true, initialSrc]
  simp [invokeCount, killCount, unloadCount, List.countP_cons] at a3 a4 a5 b3 b4 b5 ⊢
  simp [hsk] at a4 a5 b4 b5
  refine ⟨a1, ?_, a3, a4, a5, b1, ?_, b3, b4, b5⟩
  · simpa [maxRetriesA] using a2
  · simpa [maxRetriesB] using b2

/-- Witness for C3's amended theorem at the concrete all-fail
environment. -/
theorem c3_exhaustion_amended_witness :
    (newWebSourceB envAllFail).1.err = attemptErr (envAllFail.attempts maxRetriesB) ∧
    invokeCount (newWebSourceB envAllFail).2 = maxRetriesB ∧
    killCount (newWebSourceB envAllFail).2 = 1 ∧
    unloadCount (newWebSourceB envAllFail).2 = 1 :=
  have H := c3_exhaustion_amended envAllFail "42\n" rfl (by decide) rfl
    (fun i _ _ => by simp [envAllFail, attemptErr])
  ⟨H.2.2.2.2.2.2.1, H.2.2.2.2.2.2.2.1, H.2.2.2.2.2.2.2.2.1, H.2.2.2.2.2.2.2.2.2⟩

/-- Claim C4, counterexample: on a fully-built controller, the second
`Close` runs `pactl unload-module` again (the source never clears
`pulseSink`), so the sink teardown is invoked twice across two `Close`
calls, not once. -/
theorem c4_close_second_call_unloads_again :
    (closeSrc sC4).2 = [Ev.cancelChrome 1, Ev.killXvfb, Ev.unloadSink "42"] ∧
    (closeSrc (closeSrc sC4).1).2 = [Ev.unloadSink "42"] ∧
    unloadCount ((closeSrc sC4).2 ++ (closeSrc (closeSrc sC4).1).2) = 2 := by decide

/-- Claim C4, amended: `Close` is idempotent in state (a second call
leaves the state unchanged), and the chrome handle and the display are
torn down at most once across repeated calls (zero on the second call);
but the pulse-sink unload is re-invoked by every call on which
`pulseSink` is nonempty, since the field is never cleared. -/
theorem c4_close_idempotent_amended (s : WebSrc) :
    (closeSrc (closeSrc s).1).1 = (closeSrc s).1 ∧
    cancelCount (closeSrc s).2 ≤ 1 ∧
    killCount (closeSrc s).2 ≤ 1 ∧
    cancelCount (closeSrc (closeSrc s).1).2 = 0 ∧
    killCount (closeSrc (closeSrc s).1).2 = 0 ∧
    unloadCount (closeSrc (closeSrc s).1).2 = unloadCount (closeSrc s).2 := by
  obtain ⟨ps, xv, cc, sr, er⟩ := s
  rcases xv with _ | x <;> rcases cc with _ | c <;> by_cases hp : ps = "" <;>
    simp [closeSrc, closeChromeStep, closeXvfbStep, closePulseStep, hp,
      cancelCount, killCount, unloadCount, List.countP_cons, List.countP_append]

/-- Claim C5: each signal transitions to occurred at most once — once a
signal's channel is closed, re-observing the same sentinel returns the
state unchanged (a no-op, not an error: the handler is total), and no
sequence of further console events ever resets an occurred signal, so in
particular observing the end sentinel after the start sentinel leaves the
start signal occurred. -/
theorem c5_signals_transition_at_most_once (s : Signals)
    (evs : List (List (Option String))) :
    (s.startRecording = some true →
      handleArg s (some startRecordingLog) = s ∧
      (handleStream s evs).startRecording = some true) ∧
    (s.endRecording = some true →
      handleArg s (some endRecordingLog) = s ∧
      (handleStream s evs).endRecording = some true) := by
  constructor
  · intro h
    exact ⟨by simp [handleArg, h], handleStream_start_mono s evs h⟩
  · intro h
    refine ⟨?_, handleStream_end_mono s evs h⟩
    simp [handleArg, h, end_ne_start]

/-- Witness for C5 at both signals occurred and a stream re-emitting the
end sentinel. -/
theorem c5_signals_transition_at_most_once_witness :
    handleArg ⟨some true, some true⟩ (some startRecordingLog) = ⟨some true, some true⟩ ∧
    (handleStream ⟨some true, some true⟩ [[some endRecordingLog]]).startRecording
      = some true :=
  ⟨((c5_signals_transition_at_most_once ⟨some true, some true⟩
      [[some endRecordingLog]]).1 rfl).1,
   ((c5_signals_transition_at_most_once ⟨some true, some true⟩
      [[some endRecordingLog]]).1 rfl).2⟩

/-- Claim C6, counterexample: the per-attempt wall-clock timeout
(`chromeTimeout` = 45s) is NOT strictly larger than version A's internal
navigation timeout (60s) — it is smaller. -/
theorem c6_wall_clock_not_larger :
    chromeTimeoutSec = 45 ∧ navigationTimeoutSec = 60 ∧
    ¬ navigationTimeoutSec < chromeTimeoutSec := by decide

/-- Claim C6, amended: the wall-clock timeout is distinct from and
strictly smaller than the navigation's internal timeout, and an attempt
whose launch+navigate unit does not complete before the wall-clock
timeout is recorded by the supervisor as `PageLoadFailed("timed out")`
rather than blocking it. -/
theorem c6_timeout_amended (a : ChromeAttempt) (h : a.inTime = false) :
    chromeTimeoutSec < navigationTimeoutSec ∧
    attemptErr a = some (EgressError.pageLoadFailed "timed out") := by
  refine ⟨by decide, ?_⟩
  simp [attemptErr, h]

/-- Witness for C6's amended theorem at a concrete timed-out attempt. -/
theorem c6_timeout_amended_witness :
    chromeTimeoutSec < navigationTimeoutSec ∧
    attemptErr ⟨false, none, false⟩ = some (EgressError.pageLoadFailed "timed out") :=
  c6_timeout_amended ⟨false, none, false⟩ rfl

/-- Claim C7, counterexample: with no externally-gated start requested,
the controller returned by `NewWebSource` (version B, first attempt
succeeding) has `StartRecording() = nil` — the signal does not exist and
in particular is not an already-occurred (closed) channel. -/
theorem c7_start_signal_is_nil_not_occurred :
    (newWebSourceB envFirstTry).1.src = some srcFirstTry ∧
    WebSrc.StartRecording srcFirstTry = none ∧
    WebSrc.StartRecording srcFirstTry ≠ some true := by decide

/-- Claim C7, amended: `StartRecording` returns the start channel, and
when `AwaitStartSignal` is false every controller either version of
`NewWebSource` returns carries a nil start channel: capture is ungated by
convention, but the returned signal is nil rather than already
occurred. -/
theorem c7_await_start_amended (envW : WebEnv) (s : WebSrc)
    (h : envW.awaitStartSignal = false) :
    ((newWebSourceA envW).1.src = some s → WebSrc.StartRecording s = none) ∧
    ((newWebSourceB envW).1.src = some s → WebSrc.StartRecording s = none) := by
  constructor <;> intro hsome
  · rcases hp : envW.pulseOutput with _ | out
    · simp [newWebSourceA, hp] at hsome
    · by_cases hx : envW.xvfbOk
      · simp only [newWebSourceA, hp, hx, if_true] at hsome
        have hpres := chromeLoopA_keepStart envW.attempts maxRetriesA 1 none _ s
          (by simpa using hsome)
        rw [WebSrc.StartRecording, hpres]
        simp [initialSrc, h]
      · simp [newWebSourceA, hp, hx] at hsome
  · rcases hp : envW.pulseOutput with _ | out
    · simp [newWebSourceB, hp] at hsome
    · by_cases hx : envW.xvfbOk
      · simp only [newWebSourceB, hp, hx, if_true] at hsome
        have hpres := chromeLoopB_keepStart envW.attempts maxRetriesB 1 none _ s
          (by simpa using hsome)
        rw [WebSrc.StartRecording, hpres]
        simp [initialSrc, h]
      · simp [newWebSourceB, hp, hx] at hsome

/-- Witness for C7's amended theorem at the concrete first-try
environment. -/
theorem c7_await_start_amended_witness :
    (newWebSourceB envFirstTry).1.src = some srcFirstTry ∧
      WebSrc.StartRecording srcFirstTry = none :=
  ⟨by decide, (c7_await_start_amended envFirstTry srcFirstTry rfl).2 (by decide)⟩

/-- Claim C9: when the start channel is nil, observing the start sentinel
changes nothing — the start field stays nil, the handler returns the
state unchanged for every argument other than the end sentinel (and is
total, so no panic), and no console stream ever makes the start signal
exist. -/
theorem c9_nil_start_channel_noop (s : Signals) (arg : Option String)
    (evs : List (List (Option String))) (h : s.startRecording = none) :
    (handleArg s arg).startRecording = none ∧
    (arg ≠ some endRecordingLog → handleArg s arg = s) ∧
    (handleStream s evs).startRecording = none :=
  ⟨handleArg_start_none s arg h,
   fun hne => handleArg_nil_start_other s arg h hne,
   handleStream_start_none s evs h⟩

/-- Witness for C9 at a nil start channel observing the start sentinel. -/
theorem c9_nil_start_channel_noop_witness :
    (handleArg ⟨none, some false⟩ (some startRecordingLog)).startRecording = none ∧
    handleArg ⟨none, some false⟩ (some startRecordingLog) = ⟨none, some false⟩ :=
  have H := c9_nil_start_channel_noop ⟨none, some false⟩ (some startRecordingLog)
    [[some startRecordingLog]] rfl
  ⟨H.1, H.2.1 (by decide)⟩

end Egress.Source

namespace Egress.Uploader

/-- Claim C8: `remoteUploader.Upload` neither dispatches to the
configured backend nor retries: on success the file lands at the fixed
local path `/out/recordings/<name>`, and when the copy step fails the
error is returned after a single copy attempt even though `maxRetries`
is 5 — the retry/backoff constants are never consulted. -/
theorem c8_upload_no_backend_no_retry :
    maxRetries = 5 ∧
    (remoteUpload ⟨true, false, some 42, true⟩ "/tmp/rec.mp4" "rec.mp4" false).1.err
      = some UpErr.copyFailed ∧
    copyCount (remoteUpload ⟨true, false, some 42, true⟩ "/tmp/rec.mp4" "rec.mp4" false).2
      = 1 ∧
    (remoteUpload ⟨true, true, some 42, true⟩ "/tmp/rec.mp4" "rec.mp4" false).1 =
      { location := "/out/recordings/rec.mp4", size := 42, err := none } := by decide

/-- Claim C10: with `deleteAfterUpload` set and every step up to the stat
succeeding, a failing `os.Remove` of the original file does not change
the result: `Upload` still returns the output path, the stat size and a
nil error, the remove targets only the original local file, and its
failure is discarded. -/
theorem c10_delete_failure_ignored (env : UploadEnv) (l st : String) (sz : Int)
    (h1 : env.mkdirOk = true) (h2 : env.copyOk = true)
    (h3 : env.statSize = some sz) (h4 : env.removeOk = false) :
    (remoteUpload env l st true).1 =
      { location := pathJoin outDir st, size := sz, err := none } ∧
    (remoteUpload env l st true).2 =
      [UpEv.mkdirAll (pathDir (pathJoin outDir st)),
       UpEv.copyF l (pathJoin outDir st),
       UpEv.statF (pathJoin outDir st),
       UpEv.removeF l false] := by
  simp [remoteUpload, h1, h2, h3, h4]

/-- Witness for C10 at a concrete failing-remove run. -/
theorem c10_delete_failure_ignored_witness :
    (remoteUpload ⟨true, true, some 42, false⟩ "/tmp/rec.mp4" "rec.mp4" true).1 =
      { location := pathJoin outDir "rec.mp4", size := 42, err := none } ∧
    (remoteUpload ⟨true, true, some 42, false⟩ "/tmp/rec.mp4" "rec.mp4" true).2 =
      [UpEv.mkdirAll (pathDir (pathJoin outDir "rec.mp4")),
       UpEv.copyF "/tmp/rec.mp4" (pathJoin outDir "rec.mp4"),
       UpEv.statF (pathJoin outDir "rec.mp4"),
       UpEv.removeF "/tmp/rec.mp4" false] :=
  c10_delete_failure_ignored ⟨true, true, some 42, false⟩ "/tmp/rec.mp4" "rec.mp4" 42
    rfl rfl rfl rfl

end Egress.Uploader
